import Mathlib

/-!
Shallow embedding of the adaptive provider-scheduling engine
(PerformanceScorer, MABScheduler, RealtimeDecisionEngine, AutoScheduler,
multi-window metric fusion) of the claude-code-hub repository.

JavaScript numbers are modelled by exact rationals (ℚ); weights and
priorities are integers as enforced by the validation schemas; Math.floor
is jsFloor (Rat.floor) and Math.round is jsRound (floor of x + 1/2, the
JavaScript rounding convention).  Strings (reason texts, cost fields) are
omitted throughout: no numeric behaviour depends on them.
-/

/-- JavaScript Math.floor on an exact rational. -/
def jsFloor (x : ℚ) : ℤ := x.floor

/-- JavaScript Math.round: floor (x + 1/2). -/
def jsRound (x : ℚ) : ℤ := jsFloor (x + 1/2)

/-- Circuit breaker state of a provider ("closed" | "open" | "half-open"). -/
inductive CircuitState where
  | closed
  | open_
  | halfOpen
deriving DecidableEq, Repr

/-- Numeric fields of ProviderMetrics consumed by PerformanceScorer (the
cost strings are omitted: calculateScore reads only error rate and
latency). -/
structure ProviderMetrics where
  todayRequests : ℕ
  todayErrorRate : ℚ
  todayAvgResponseTime : ℚ
  yesterdayRequests : ℕ
  yesterdayErrorRate : ℚ
  yesterdayAvgResponseTime : ℚ
deriving DecidableEq

namespace PerformanceScorer

/-- PerformanceScorer.calculateScore: success-rate term (0-60) plus speed
term (0-40), rounded to one decimal. -/
def calculateScore (metrics : ProviderMetrics) : ℚ :=
  let successRate := 1 - metrics.todayErrorRate
  let successScore := max 0 (min 60 (successRate * 60))
  let normalizedTime := min (metrics.todayAvgResponseTime / 10000) 1
  let speedScore := max 0 (min 40 ((1 - normalizedTime) * 40))
  let totalScore := successScore + speedScore
  (jsRound (totalScore * 10) : ℚ) / 10

/-- PerformanceScorer.calculateConfidence: tiers at 5x / 2x / 1x the minimum
sample size, with a linear ramp below it. -/
def calculateConfidence (sampleSize minSize : ℕ) : ℚ :=
  if minSize * 5 ≤ sampleSize then 100
  else if minSize * 2 ≤ sampleSize then 80
  else if minSize ≤ sampleSize then 50
  else if 0 < sampleSize then (jsRound ((sampleSize : ℚ) / (minSize : ℚ) * 50) : ℚ)
  else 0

end PerformanceScorer

/-- One telemetry window of a provider (requests, error rate, average
response time; the cost string is omitted). -/
structure WindowStats where
  requests : ℕ
  errorRate : ℚ
  avgResponseTime : ℚ
deriving DecidableEq

/-- The fused (weighted) tuple of MultiWindowMetrics. -/
structure WeightedMetrics where
  requests : ℕ
  errorRate : ℚ
  avgResponseTime : ℚ
  performanceScore : ℚ
deriving DecidableEq

/-- MultiWindowMetrics: three windows plus the fused tuple. -/
structure MultiWindowMetrics where
  shortTerm : WindowStats
  mediumTerm : WindowStats
  longTerm : WindowStats
  weighted : WeightedMetrics
deriving DecidableEq

/-- The per-row fusion computation of getProviderMultiWindowAnalytics:
request-share times decay weight (0.6 / 0.3 / 0.1), renormalized by the
sum, blended across the three windows, then scored. -/
def computeMultiWindowMetrics (shortTerm mediumTerm longTerm : WindowStats) :
    MultiWindowMetrics :=
  let totalRequests := shortTerm.requests + mediumTerm.requests + longTerm.requests
  let fused : ℚ × ℚ :=
    if totalRequests = 0 then (0, 0)
    else
      let shortWeight := (shortTerm.requests : ℚ) / (totalRequests : ℚ)
      let mediumWeight := (mediumTerm.requests : ℚ) / (totalRequests : ℚ)
      let longWeight := (longTerm.requests : ℚ) / (totalRequests : ℚ)
      let normalizedShort := shortWeight * (6/10)
      let normalizedMedium := mediumWeight * (3/10)
      let normalizedLong := longWeight * (1/10)
      let totalWeight := normalizedShort + normalizedMedium + normalizedLong
      if 0 < totalWeight then
        ((shortTerm.errorRate * normalizedShort +
            mediumTerm.errorRate * normalizedMedium +
            longTerm.errorRate * normalizedLong) / totalWeight,
         (shortTerm.avgResponseTime * normalizedShort +
            mediumTerm.avgResponseTime * normalizedMedium +
            longTerm.avgResponseTime * normalizedLong) / totalWeight)
      else (0, 0)
  let performanceScore := PerformanceScorer.calculateScore
    ⟨totalRequests, fused.1, fused.2, 0, 0, 0⟩
  { shortTerm, mediumTerm, longTerm,
    weighted := ⟨totalRequests, fused.1, fused.2, performanceScore⟩ }

/-- ProviderMultiWindowAnalytics: one enabled provider as seen by the
realtime (MAB) engine. -/
structure MWProvider where
  id : ℤ
  weight : ℤ
  priority : ℤ
  baseWeight : Option ℤ
  basePriority : Option ℤ
  metrics : MultiWindowMetrics
  circuitState : CircuitState
deriving DecidableEq

/-- MABConfig (explorationRate, minSampleSize, circuitRecoveryWeightPercent,
maxWeightAdjustmentPercent). -/
structure MABConfig where
  explorationRate : ℚ
  minSampleSize : ℕ
  circuitRecoveryWeightPercent : ℚ
  maxWeightAdjustmentPercent : ℚ
deriving DecidableEq

/-- The action field of a ScheduleDecision. -/
inductive ScheduleAction where
  | promote
  | demote
  | maintain
  | recover
  | circuitPenalty
  | explore
deriving DecidableEq, Repr

/-- Numeric core of a ScheduleDecision: before/after weight and priority,
action, confidence and the baseline carried for rollback. -/
structure Decision where
  providerId : ℤ
  beforeWeight : ℤ
  beforePriority : ℤ
  afterWeight : ℤ
  afterPriority : ℤ
  action : ScheduleAction
  confidence : ℚ
  baselineWeight : ℤ
  baselinePriority : ℤ
deriving DecidableEq

/-- ScheduleSummary: decision counts by action. -/
structure ScheduleSummary where
  promoted : ℕ
  demoted : ℕ
  maintained : ℕ
  recovered : ℕ
  circuitOpen : ℕ
deriving DecidableEq

namespace MABScheduler

/-- MABScheduler.calculateConfidence (distinct from the PerformanceScorer
one): 0 at zero requests, 100 at twice the minimum sample size, linear
in between. -/
def calculateConfidence (requests minSampleSize : ℕ) : ℚ :=
  if requests = 0 then 0
  else if minSampleSize * 2 ≤ requests then 100
  else min 100 ((jsFloor ((requests : ℚ) / ((minSampleSize : ℚ) * 2) * 100) : ℚ))

/-- The performance-tier step of MABScheduler.calculateAdjustment (score
at least 85 / 70 / 50 / below), producing the target weight and priority
before rate limiting. -/
def tierAdjust (performanceScore : ℚ) (currentWeight baseWeight basePriority : ℤ)
    (maxWeightAdjustmentPercent : ℚ) : ℤ × ℤ :=
  if 85 ≤ performanceScore then
    let increase := jsFloor ((baseWeight : ℚ) * (maxWeightAdjustmentPercent / 100))
    (min 100 (currentWeight + increase), max 0 (basePriority - 1))
  else if 70 ≤ performanceScore then
    (baseWeight, basePriority)
  else if 50 ≤ performanceScore then
    let decrease := jsFloor ((baseWeight : ℚ) * (maxWeightAdjustmentPercent / 200))
    (max 1 (currentWeight - decrease), basePriority + 1)
  else
    let decrease := jsFloor ((baseWeight : ℚ) * (maxWeightAdjustmentPercent / 100))
    (max 1 (currentWeight - decrease), basePriority + 2)

/-- The rate-limiting and final clamping step of
MABScheduler.calculateAdjustment: the change from the current weight is
limited to plus/minus floor(currentWeight * maxWeightAdjustmentPercent/100),
then the result is clamped to [1, 100]. -/
def rateLimitClamp (targetWeight currentWeight : ℤ)
    (maxWeightAdjustmentPercent : ℚ) : ℤ :=
  let maxChange := jsFloor ((currentWeight : ℚ) * (maxWeightAdjustmentPercent / 100))
  let weightDelta := targetWeight - currentWeight
  let suggested :=
    if maxChange < |weightDelta| then currentWeight + weightDelta.sign * maxChange
    else targetWeight
  max 1 (min 100 suggested)

/-- MABScheduler.calculateAdjustment: circuit-open and half-open overrides,
the low-sample exploration allowance, then tiering plus rate limiting.
(The ucbValue argument of the source is omitted: the source never reads
it.)  Returns (suggestedWeight, suggestedPriority). -/
def calculateAdjustment (p : MWProvider) (baseWeight basePriority : ℤ)
    (config : MABConfig) : ℤ × ℤ :=
  if p.circuitState = .open_ then (0, 999)
  else if p.circuitState = .halfOpen then
    let recoveryWeight := jsFloor ((baseWeight : ℚ) * (config.circuitRecoveryWeightPercent / 100))
    (max 1 recoveryWeight, basePriority + 1)
  else if p.metrics.weighted.requests < config.minSampleSize then
    let explorationWeight := max 1 (jsFloor ((baseWeight : ℚ) * (5/10)))
    (explorationWeight, basePriority)
  else
    let t := tierAdjust p.metrics.weighted.performanceScore p.weight baseWeight
      basePriority config.maxWeightAdjustmentPercent
    (rateLimitClamp t.1 p.weight config.maxWeightAdjustmentPercent, max 0 t.2)

/-- Numeric core of a MABDecision.  The ucbValue field is omitted (it is
computed from sqrt/ln in the source but never read by any downstream
consumer modelled here). -/
structure MABDecision where
  providerId : ℤ
  isExploration : Bool
  currentWeight : ℤ
  currentPriority : ℤ
  suggestedWeight : ℤ
  suggestedPriority : ℤ
  requests : ℕ
  performanceScore : ℚ
  errorRate : ℚ
  avgResponseTime : ℚ
  confidence : ℚ
deriving DecidableEq

/-- MABScheduler.generateDecisions: one MABDecision per provider, with the
baseline defaulting to the current weight/priority when unset. -/
def generateDecisions (providers : List MWProvider) (config : MABConfig) :
    List MABDecision :=
  providers.map fun provider =>
    let baseWeight := provider.baseWeight.getD provider.weight
    let basePriority := provider.basePriority.getD provider.priority
    let s := calculateAdjustment provider baseWeight basePriority config
    let confidence := calculateConfidence provider.metrics.weighted.requests
      config.minSampleSize
    let isExploration :=
      decide (provider.metrics.weighted.requests < config.minSampleSize)
    { providerId := provider.id, isExploration,
      currentWeight := provider.weight, currentPriority := provider.priority,
      suggestedWeight := s.1, suggestedPriority := s.2,
      requests := provider.metrics.weighted.requests,
      performanceScore := provider.metrics.weighted.performanceScore,
      errorRate := provider.metrics.weighted.errorRate,
      avgResponseTime := provider.metrics.weighted.avgResponseTime,
      confidence }

end MABScheduler

/-- A provider record as stored in the provider store.

Modelled from the spec: the provider store itself (repository/provider)
is not among the given sources; spec section 6 describes it as
`update(id, {weight?, priority?, baseWeight?, basePriority?, ...})`
applied to provider rows. -/
structure StoredProvider where
  id : ℤ
  weight : ℤ
  priority : ℤ
  baseWeight : Option ℤ
  basePriority : Option ℤ
deriving DecidableEq

/-- The persistent state touched by a scheduling cycle: the provider rows
and the number of ScheduleLog rows appended so far.

Modelled from the spec: the provider store and the schedule-log store are
external collaborators (spec section 6); createScheduleLog appends one row
per call. -/
structure Store where
  providers : List StoredProvider
  logs : ℕ
deriving DecidableEq

/-- Failure injection for the external stores: which provider updates
throw, and whether the ScheduleLog insert throws. -/
structure FaultEnv where
  updateFails : ℤ → Bool
  logFails : Bool

/-- One updateProvider call made by applyDecisions (both engines): write
the after-state weight and priority, and write the baseline columns
exactly when the decision's baseline equals its before-state (the "first
schedule" guard of the source). -/
def applyUpdate (s : Store) (d : Decision) : Store :=
  { s with
    providers := s.providers.map fun p =>
      if p.id = d.providerId then
        { p with
          weight := d.afterWeight
          priority := d.afterPriority
          baseWeight :=
            if d.baselineWeight = d.beforeWeight then some d.beforeWeight
            else p.baseWeight
          basePriority :=
            if d.baselinePriority = d.beforePriority then some d.beforePriority
            else p.basePriority }
      else p }

namespace RealtimeDecisionEngine

/-- RealtimeDecisionEngine.convertToScheduleDecisions: action
classification from the weight delta, with baseline.weight set to the
current (pre-change) weight. -/
def convertToScheduleDecisions (mabDecisions : List MABScheduler.MABDecision) :
    List Decision :=
  mabDecisions.map fun mab =>
    let weightChange := mab.suggestedWeight - mab.currentWeight
    let action : ScheduleAction :=
      if mab.requests = 0 ∨ mab.isExploration = true then .explore
      else if 0 < weightChange then .promote
      else if weightChange < 0 then .demote
      else if mab.currentWeight < (if 0 < mab.requests then mab.currentWeight else 1) then
        .recover
      else .maintain
    { providerId := mab.providerId,
      beforeWeight := mab.currentWeight, beforePriority := mab.currentPriority,
      afterWeight := mab.suggestedWeight, afterPriority := mab.suggestedPriority,
      action, confidence := mab.confidence,
      baselineWeight := mab.currentWeight, baselinePriority := mab.currentPriority }

/-- The per-decision loop of RealtimeDecisionEngine.applyDecisions: each
update is wrapped in its own try/catch, so a failing update is skipped and
the remaining updates are still attempted. -/
def applyGo (env : FaultEnv) : List Decision → Store → Store
  | [], s => s
  | d :: rest, s =>
      applyGo env rest (if env.updateFails d.providerId then s else applyUpdate s d)

/-- RealtimeDecisionEngine.applyDecisions: update only the decisions whose
weight or priority changed, tolerating per-provider failures. -/
def applyDecisions (env : FaultEnv) (decisions : List Decision) (s : Store) : Store :=
  let updates := decisions.filter fun d =>
    decide (d.afterWeight ≠ d.beforeWeight ∨ d.afterPriority ≠ d.beforePriority)
  applyGo env updates s

/-- One step of calculateSummary's loop: bump the counter selected by the
decision's action, with explore counted into maintained. -/
def summaryStep (summary : ScheduleSummary) (decision : Decision) : ScheduleSummary :=
  match decision.action with
  | .promote => { summary with promoted := summary.promoted + 1 }
  | .demote => { summary with demoted := summary.demoted + 1 }
  | .maintain => { summary with maintained := summary.maintained + 1 }
  | .recover => { summary with recovered := summary.recovered + 1 }
  | .circuitPenalty => { summary with circuitOpen := summary.circuitOpen + 1 }
  | .explore => { summary with maintained := summary.maintained + 1 }

/-- calculateSummary (shared shape between both engines): count decisions
by action. -/
def calculateSummary (decisions : List Decision) : ScheduleSummary :=
  decisions.foldl summaryStep ⟨0, 0, 0, 0, 0⟩

/-- Result of one realtime cycle (RealtimeScheduleResult). -/
structure RtResult where
  ok : Bool
  totalProviders : ℕ
  affectedProviders : ℕ
  decisions : List Decision
  summary : ScheduleSummary
deriving DecidableEq

/-- RealtimeDecisionEngine.execute: early-return on an empty provider
list (without logging), otherwise generate, convert, summarize, apply
unless dryRun, then log with the log failure swallowed. -/
def execute (env : FaultEnv) (config : MABConfig) (providers : List MWProvider)
    (dryRun : Bool) (s : Store) : RtResult × Store :=
  if providers = [] then
    ({ ok := true, totalProviders := 0, affectedProviders := 0,
       decisions := [], summary := ⟨0, 0, 0, 0, 0⟩ }, s)
  else
    let mabDecisions := MABScheduler.generateDecisions providers config
    let decisions := convertToScheduleDecisions mabDecisions
    let summary := calculateSummary decisions
    let s1 := if dryRun then s else applyDecisions env decisions s
    let s2 := if env.logFails then s1 else { s1 with logs := s1.logs + 1 }
    ({ ok := true, totalProviders := providers.length,
       affectedProviders := summary.promoted + summary.demoted + summary.recovered,
       decisions, summary }, s2)

end RealtimeDecisionEngine

/-- A provider as read by the rule (AutoScheduler) policy. -/
structure Provider where
  id : ℤ
  weight : ℤ
  priority : ℤ
  baseWeight : Option ℤ
  basePriority : Option ℤ
  isEnabled : Bool
deriving DecidableEq

/-- Numeric fields of ProviderAnalytics consumed by
AutoScheduler.applyStrategy. -/
structure ProviderAnalytics where
  performanceScore : ℚ
  confidence : ℚ
  todayRequests : ℕ
  todayErrorRate : ℚ
  todayAvgResponseTime : ℚ
  yesterdayRequests : ℕ
  yesterdayErrorRate : ℚ
  yesterdayAvgResponseTime : ℚ
deriving DecidableEq

namespace AutoScheduler

/-- AutoScheduler.applyStrategy: low-confidence maintain, circuit-open
double penalty, recovery to baseline, then the tiered promote / demote /
maintain policy. -/
def applyStrategy (provider : Provider) (analytics : ProviderAnalytics)
    (circuitState : CircuitState) : Decision :=
  let score := analytics.performanceScore
  let confidence := analytics.confidence
  let baseWeight := provider.baseWeight.getD provider.weight
  let basePriority := provider.basePriority.getD provider.priority
  if confidence < 50 then
    { providerId := provider.id,
      beforeWeight := provider.weight, beforePriority := provider.priority,
      afterWeight := provider.weight, afterPriority := provider.priority,
      action := .maintain, confidence,
      baselineWeight := baseWeight, baselinePriority := basePriority }
  else if circuitState = .open_ then
    { providerId := provider.id,
      beforeWeight := provider.weight, beforePriority := provider.priority,
      afterWeight := max 1 (jsFloor ((provider.weight : ℚ) * (7/10))),
      afterPriority := provider.priority + 2,
      action := .circuitPenalty, confidence,
      baselineWeight := baseWeight, baselinePriority := basePriority }
  else if 80 < score ∧ (provider.weight < baseWeight ∨ basePriority < provider.priority) then
    { providerId := provider.id,
      beforeWeight := provider.weight, beforePriority := provider.priority,
      afterWeight := baseWeight, afterPriority := basePriority,
      action := .recover, confidence,
      baselineWeight := baseWeight, baselinePriority := basePriority }
  else if 85 < score then
    { providerId := provider.id,
      beforeWeight := provider.weight, beforePriority := provider.priority,
      afterWeight := min 100 (jsFloor ((provider.weight : ℚ) * (12/10))),
      afterPriority := max 0 (provider.priority - 1),
      action := .promote, confidence,
      baselineWeight := baseWeight, baselinePriority := basePriority }
  else if score < 60 then
    { providerId := provider.id,
      beforeWeight := provider.weight, beforePriority := provider.priority,
      afterWeight := max 1 (jsFloor ((provider.weight : ℚ) * (8/10))),
      afterPriority := provider.priority + 1,
      action := .demote, confidence,
      baselineWeight := baseWeight, baselinePriority := basePriority }
  else
    { providerId := provider.id,
      beforeWeight := provider.weight, beforePriority := provider.priority,
      afterWeight := provider.weight, afterPriority := provider.priority,
      action := .maintain, confidence,
      baselineWeight := baseWeight, baselinePriority := basePriority }

/-- AutoScheduler.generateDecisions: skip disabled providers and providers
without analytics, apply the strategy to the rest. -/
def generateDecisions (providers : List Provider)
    (analytics : ℤ → Option ProviderAnalytics) (circuit : ℤ → CircuitState) :
    List Decision :=
  providers.filterMap fun provider =>
    if provider.isEnabled then
      (analytics provider.id).map fun a =>
        applyStrategy provider a (circuit provider.id)
    else none

/-- The per-decision loop of AutoScheduler.applyDecisions: unlike the
realtime engine there is no per-provider try/catch, so the first failing
update raises out of the loop (second component false) and the remaining
updates are never attempted. -/
def applyGo (env : FaultEnv) : List Decision → Store → Store × Bool
  | [], s => (s, true)
  | d :: rest, s =>
      if env.updateFails d.providerId then (s, false)
      else applyGo env rest (applyUpdate s d)

/-- AutoScheduler.applyDecisions: update the non-maintain decisions with
confidence at least 50. -/
def applyDecisions (env : FaultEnv) (decisions : List Decision) (s : Store) :
    Store × Bool :=
  let updates := decisions.filter fun d =>
    decide (d.action ≠ ScheduleAction.maintain ∧ 50 ≤ d.confidence)
  applyGo env updates s

/-- Result of one rule-scheduler cycle (ScheduleResult, numeric core). -/
structure AsResult where
  ok : Bool
  totalProviders : ℕ
  affectedProviders : ℕ
  summary : ScheduleSummary
deriving DecidableEq

/-- AutoScheduler.execute: generate, summarize, apply unless dryRun, then
log.  Exceptions from a provider update or from the ScheduleLog insert
reach execute's catch, which returns ok = false with zeroed totals; the
store keeps whatever had been written before the exception. -/
def execute (env : FaultEnv) (providers : List Provider)
    (analytics : ℤ → Option ProviderAnalytics) (circuit : ℤ → CircuitState)
    (dryRun : Bool) (s : Store) : AsResult × Store :=
  let decisions := generateDecisions providers analytics circuit
  let summary := RealtimeDecisionEngine.calculateSummary decisions
  let applied :=
    if dryRun = false ∧ decisions ≠ [] then applyDecisions env decisions s
    else (s, true)
  if applied.2 = false then
    ({ ok := false, totalProviders := 0, affectedProviders := 0,
       summary := ⟨0, 0, 0, 0, 0⟩ }, applied.1)
  else if env.logFails then
    ({ ok := false, totalProviders := 0, affectedProviders := 0,
       summary := ⟨0, 0, 0, 0, 0⟩ }, applied.1)
  else
    ({ ok := true, totalProviders := decisions.length,
       affectedProviders := summary.promoted + summary.demoted + summary.recovered,
       summary }, { applied.1 with logs := applied.1.logs + 1 })

end AutoScheduler

/-! Concrete records used by the witnesses, counterexamples and
evaluations below. -/

/-- A closed-circuit provider with an already-seeded baseline (baseWeight
50) whose current weight is 55 and whose fused score 40 puts it in the
lowest performance tier. -/
def mwProviderEx : MWProvider :=
  { id := 1, weight := 55, priority := 0, baseWeight := some 50, basePriority := some 0,
    metrics := { shortTerm := ⟨20, 1/2, 0⟩, mediumTerm := ⟨0, 0, 0⟩, longTerm := ⟨0, 0, 0⟩,
                 weighted := ⟨20, 1/2, 0, 40⟩ },
    circuitState := .closed }

/-- The same provider with its circuit breaker open. -/
def mwProviderOpenEx : MWProvider :=
  { mwProviderEx with id := 3, circuitState := .open_ }

/-- The default MAB configuration of the background scheduler. -/
def mabConfigEx : MABConfig :=
  { explorationRate := 15, minSampleSize := 10, circuitRecoveryWeightPercent := 30,
    maxWeightAdjustmentPercent := 10 }

/-- A fault-free environment. -/
def envOk : FaultEnv := { updateFails := fun _ => false, logFails := false }

/-- An environment in which the update of provider 1 throws. -/
def envFail1 : FaultEnv := { updateFails := fun i => decide (i = 1), logFails := false }

/-- An environment in which the ScheduleLog insert throws. -/
def envLogFail : FaultEnv := { updateFails := fun _ => false, logFails := true }

/-- A store holding the row behind mwProviderEx (baseline already 50). -/
def storeEx : Store :=
  { providers := [{ id := 1, weight := 55, priority := 0, baseWeight := some 50,
                    basePriority := some 0 }], logs := 0 }

/-- A store with two fresh provider rows. -/
def storeTwoEx : Store :=
  { providers := [⟨1, 10, 0, none, none⟩, ⟨2, 10, 0, none, none⟩], logs := 0 }

/-- A rule-policy provider with no baseline. -/
def providerEx : Provider :=
  { id := 2, weight := 10, priority := 0, baseWeight := none, basePriority := none,
    isEnabled := true }

/-- Analytics with score 50 and confidence 80. -/
def analyticsEx : ProviderAnalytics :=
  { performanceScore := 50, confidence := 80, todayRequests := 100,
    todayErrorRate := 1/2, todayAvgResponseTime := 100,
    yesterdayRequests := 0, yesterdayErrorRate := 0, yesterdayAvgResponseTime := 0 }

/-- Analytics with score 70 (maintain tier) and confidence 80. -/
def analyticsMaintainEx : ProviderAnalytics :=
  { analyticsEx with performanceScore := 70 }

/-- An analytics lookup exposing analyticsMaintainEx for provider 2. -/
def analyticsLookupEx : ℤ → Option ProviderAnalytics :=
  fun i => if i = 2 then some analyticsMaintainEx else none

/-- A decision changing provider 1's weight from 10 to 12. -/
def decisionAEx : Decision :=
  { providerId := 1, beforeWeight := 10, beforePriority := 0,
    afterWeight := 12, afterPriority := 0, action := .promote, confidence := 80,
    baselineWeight := 10, baselinePriority := 0 }

/-- A decision changing provider 2's weight from 10 to 8. -/
def decisionBEx : Decision :=
  { providerId := 2, beforeWeight := 10, beforePriority := 0,
    afterWeight := 8, afterPriority := 1, action := .demote, confidence := 80,
    baselineWeight := 10, baselinePriority := 0 }

/-- A MAB decision raising the weight of provider 1 from 10 to 12. -/
def mabDecisionEx : MABScheduler.MABDecision :=
  { providerId := 1, isExploration := false, currentWeight := 10, currentPriority := 0,
    suggestedWeight := 12, suggestedPriority := 0, requests := 30,
    performanceScore := 90, errorRate := 0, avgResponseTime := 100, confidence := 100 }

/-- The schedule decision that convertToScheduleDecisions produces from
mabDecisionEx. -/
def convertedDecisionEx : Decision :=
  { providerId := 1, beforeWeight := 10, beforePriority := 0,
    afterWeight := 12, afterPriority := 0, action := .promote, confidence := 100,
    baselineWeight := 10, baselinePriority := 0 }

/-! Helper lemmas. -/

@[simp] theorem jsFloor_eq_floor (x : ℚ) : jsFloor x = ⌊x⌋ := by
  rw [jsFloor, Rat.floor_def', Rat.floor_def]

theorem jsRound_eq_floor (x : ℚ) : jsRound x = ⌊x + 1/2⌋ := by
  rw [jsRound, jsFloor_eq_floor]

theorem clamp_comm (c x : ℚ) (hc : 0 ≤ c) : max 0 (min c x) = min c (max 0 x) := by
  rcases le_total x 0 with h | h <;> rcases le_total x c with h' | h' <;>
    simp [min_def, max_def] <;> split_ifs <;> linarith

/-- C8: PerformanceScorer.calculateScore equals
min(60, max(0, (1-errorRate)*60)) + min(40, max(0, (1-min(avgResponseTime/10000, 1))*40))
rounded to one decimal; score(0, 0) = 100 and score(1, t) = 0 for every
response time t at or above 10000 ms. -/
theorem calculateScore_spec :
    (∀ m : ProviderMetrics,
        PerformanceScorer.calculateScore m =
          (jsRound ((min 60 (max 0 ((1 - m.todayErrorRate) * 60)) +
            min 40 (max 0 ((1 - min (m.todayAvgResponseTime / 10000) 1) * 40))) * 10) : ℚ) / 10)
    ∧ PerformanceScorer.calculateScore ⟨0, 0, 0, 0, 0, 0⟩ = 100
    ∧ ∀ t : ℚ, 10000 ≤ t →
        PerformanceScorer.calculateScore ⟨0, 1, t, 0, 0, 0⟩ = 0 := by
  refine ⟨fun m => ?_, ?_, fun t ht => ?_⟩
  · rw [PerformanceScorer.calculateScore, clamp_comm 60 _ (by norm_num),
      clamp_comm 40 _ (by norm_num)]
  · norm_num [PerformanceScorer.calculateScore, jsRound_eq_floor]
  · have h1 : min (t / 10000) 1 = 1 := by
      rw [min_eq_right]
      rw [le_div_iff₀ (by norm_num : (0:ℚ) < 10000)]
      linarith
    simp only [PerformanceScorer.calculateScore, h1]
    norm_num [jsRound_eq_floor]

/-- C8 witness: a response time of 12000 ms with error rate 1 scores 0. -/
theorem calculateScore_spec_witness :
    PerformanceScorer.calculateScore ⟨0, 1, 12000, 0, 0, 0⟩ = 0 :=
  calculateScore_spec.2.2 12000 (by norm_num)

set_option maxHeartbeats 1000000 in
/-- C9: for every fixed minimum sample size of at least 1,
PerformanceScorer.calculateConfidence is non-decreasing in the sample
size. -/
theorem calculateConfidence_mono (minSize : ℕ) (hm : 1 ≤ minSize)
    (s t : ℕ) (hst : s ≤ t) :
    PerformanceScorer.calculateConfidence s minSize ≤
      PerformanceScorer.calculateConfidence t minSize := by
  have hm0 : (0 : ℚ) < (minSize : ℚ) := by exact_mod_cast hm
  have ramp_nonneg : ∀ k : ℕ, (0 : ℚ) ≤ (jsRound ((k : ℚ) / (minSize : ℚ) * 50) : ℚ) := by
    intro k
    rw [jsRound_eq_floor]
    exact_mod_cast Int.floor_nonneg.mpr (by positivity)
  have ramp_le : ∀ k : ℕ, k ≤ minSize → (jsRound ((k : ℚ) / (minSize : ℚ) * 50) : ℚ) ≤ 50 := by
    intro k hk
    rw [jsRound_eq_floor]
    have harg : (k : ℚ) / (minSize : ℚ) * 50 + 1/2 ≤ (101 : ℚ) / 2 := by
      have : (k : ℚ) / (minSize : ℚ) ≤ 1 := by
        rw [div_le_one hm0]
        exact_mod_cast hk
      nlinarith
    calc ((⌊(k : ℚ) / (minSize : ℚ) * 50 + 1/2⌋ : ℤ) : ℚ)
        ≤ ((⌊(101 : ℚ) / 2⌋ : ℤ) : ℚ) := by exact_mod_cast Int.floor_le_floor harg
      _ = 50 := by norm_num
  have ramp_mono : (jsRound ((s : ℚ) / (minSize : ℚ) * 50) : ℚ) ≤
      (jsRound ((t : ℚ) / (minSize : ℚ) * 50) : ℚ) := by
    rw [jsRound_eq_floor, jsRound_eq_floor]
    have harg : (s : ℚ) / (minSize : ℚ) * 50 + 1/2 ≤ (t : ℚ) / (minSize : ℚ) * 50 + 1/2 := by
      gcongr
    exact_mod_cast Int.floor_le_floor harg
  rw [PerformanceScorer.calculateConfidence, PerformanceScorer.calculateConfidence]
  split_ifs <;>
    first
      | (exfalso; omega)
      | exact ramp_nonneg _
      | exact ramp_mono
      | exact le_trans (ramp_le _ (by omega)) (by norm_num)
      | norm_num

/-- C9 witness: confidence at 3 samples is at most confidence at 7 samples
for a minimum sample size of 10. -/
theorem calculateConfidence_mono_witness :
    PerformanceScorer.calculateConfidence 3 10 ≤
      PerformanceScorer.calculateConfidence 7 10 :=
  calculateConfidence_mono 10 (by decide) 3 7 (by decide)

set_option maxHeartbeats 1000000 in
/-- C7: with zero total requests the fused error rate and latency are 0
and the fused score is the score of zero error rate and zero latency;
otherwise both are blended with each window's request share times the
decay weights 0.6 / 0.3 / 0.1, renormalized by the sum of the three
decayed weights. -/
theorem multiWindow_fusion (st mt lt : WindowStats) :
    (st.requests + mt.requests + lt.requests = 0 →
      (computeMultiWindowMetrics st mt lt).weighted.errorRate = 0 ∧
      (computeMultiWindowMetrics st mt lt).weighted.avgResponseTime = 0 ∧
      (computeMultiWindowMetrics st mt lt).weighted.performanceScore =
        PerformanceScorer.calculateScore ⟨0, 0, 0, 0, 0, 0⟩)
    ∧ (st.requests + mt.requests + lt.requests ≠ 0 →
      (computeMultiWindowMetrics st mt lt).weighted.errorRate =
        (st.errorRate * ((st.requests : ℚ) / ((st.requests + mt.requests + lt.requests : ℕ) : ℚ) * (6/10)) +
          mt.errorRate * ((mt.requests : ℚ) / ((st.requests + mt.requests + lt.requests : ℕ) : ℚ) * (3/10)) +
          lt.errorRate * ((lt.requests : ℚ) / ((st.requests + mt.requests + lt.requests : ℕ) : ℚ) * (1/10))) /
        ((st.requests : ℚ) / ((st.requests + mt.requests + lt.requests : ℕ) : ℚ) * (6/10) +
          (mt.requests : ℚ) / ((st.requests + mt.requests + lt.requests : ℕ) : ℚ) * (3/10) +
          (lt.requests : ℚ) / ((st.requests + mt.requests + lt.requests : ℕ) : ℚ) * (1/10)) ∧
      (computeMultiWindowMetrics st mt lt).weighted.avgResponseTime =
        (st.avgResponseTime * ((st.requests : ℚ) / ((st.requests + mt.requests + lt.requests : ℕ) : ℚ) * (6/10)) +
          mt.avgResponseTime * ((mt.requests : ℚ) / ((st.requests + mt.requests + lt.requests : ℕ) : ℚ) * (3/10)) +
          lt.avgResponseTime * ((lt.requests : ℚ) / ((st.requests + mt.requests + lt.requests : ℕ) : ℚ) * (1/10))) /
        ((st.requests : ℚ) / ((st.requests + mt.requests + lt.requests : ℕ) : ℚ) * (6/10) +
          (mt.requests : ℚ) / ((st.requests + mt.requests + lt.requests : ℕ) : ℚ) * (3/10) +
          (lt.requests : ℚ) / ((st.requests + mt.requests + lt.requests : ℕ) : ℚ) * (1/10))) := by
  constructor
  · intro h
    simp only [computeMultiWindowMetrics, h]
    norm_num
  · intro h
    have hq : (0 : ℚ) < ((st.requests + mt.requests + lt.requests : ℕ) : ℚ) := by
      exact_mod_cast Nat.pos_of_ne_zero h
    have hsum : (st.requests : ℚ) + (mt.requests : ℚ) + (lt.requests : ℚ) =
        ((st.requests + mt.requests + lt.requests : ℕ) : ℚ) := by push_cast; ring
    have hw : (0 : ℚ) <
        (st.requests : ℚ) / ((st.requests + mt.requests + lt.requests : ℕ) : ℚ) * (6/10) +
          (mt.requests : ℚ) / ((st.requests + mt.requests + lt.requests : ℕ) : ℚ) * (3/10) +
          (lt.requests : ℚ) / ((st.requests + mt.requests + lt.requests : ℕ) : ℚ) * (1/10) := by
      have hrw : (st.requests : ℚ) / ((st.requests + mt.requests + lt.requests : ℕ) : ℚ) * (6/10) +
          (mt.requests : ℚ) / ((st.requests + mt.requests + lt.requests : ℕ) : ℚ) * (3/10) +
          (lt.requests : ℚ) / ((st.requests + mt.requests + lt.requests : ℕ) : ℚ) * (1/10) =
          ((6/10) * (st.requests : ℚ) + (3/10) * (mt.requests : ℚ) + (1/10) * (lt.requests : ℚ)) /
            ((st.requests + mt.requests + lt.requests : ℕ) : ℚ) := by
        field_simp
        ring
      rw [hrw]
      apply div_pos ?_ hq
      have h1 : (0 : ℚ) ≤ (st.requests : ℚ) := Nat.cast_nonneg _
      have h2 : (0 : ℚ) ≤ (mt.requests : ℚ) := Nat.cast_nonneg _
      have h3 : (0 : ℚ) ≤ (lt.requests : ℚ) := Nat.cast_nonneg _
      nlinarith [hsum, hq]
    simp only [computeMultiWindowMetrics, h, if_neg h, if_pos hw]
    exact ⟨rfl, rfl⟩

/-- C7 witness: fusing windows with 6, 3 and 1 requests blends the error
rate to 27/46 and the latency to 2900/23. -/
theorem multiWindow_fusion_witness :
    (computeMultiWindowMetrics ⟨6, 1/2, 100⟩ ⟨3, 1, 200⟩ ⟨1, 0, 400⟩).weighted.errorRate = 27/46 ∧
    (computeMultiWindowMetrics ⟨6, 1/2, 100⟩ ⟨3, 1, 200⟩ ⟨1, 0, 400⟩).weighted.avgResponseTime = 2900/23 := by
  have h := (multiWindow_fusion ⟨6, 1/2, 100⟩ ⟨3, 1, 200⟩ ⟨1, 0, 400⟩).2 (by decide)
  refine ⟨h.1.trans (by norm_num), h.2.trans (by norm_num)⟩

theorem clamp_abs_le (s c : ℤ) (h1 : 1 ≤ c) (h2 : c ≤ 100) :
    |max 1 (min 100 s) - c| ≤ |s - c| := by
  rcases le_total 0 (s - c) with h | h
  · rw [abs_of_nonneg h, abs_le]
    constructor <;> omega
  · rw [abs_of_nonpos h, abs_le]
    constructor <;> omega

theorem rateLimitClamp_abs_le (t c : ℤ) (pct : ℚ) (h1 : 1 ≤ c) (h2 : c ≤ 100)
    (hp : 0 ≤ pct) :
    |MABScheduler.rateLimitClamp t c pct - c| ≤ jsFloor ((c : ℚ) * (pct / 100)) := by
  have hM0 : 0 ≤ jsFloor ((c : ℚ) * (pct / 100)) := by
    rw [jsFloor_eq_floor]
    apply Int.floor_nonneg.mpr
    have hc : (0 : ℚ) ≤ (c : ℚ) := by exact_mod_cast le_trans (by norm_num) h1
    positivity
  rw [MABScheduler.rateLimitClamp]
  set M := jsFloor ((c : ℚ) * (pct / 100)) with hM
  by_cases h : M < |t - c|
  · rw [if_pos h]
    have hne : t - c ≠ 0 := by
      intro h0
      rw [h0] at h
      simp at h
      omega
    rcases lt_or_gt_of_ne hne with hneg | hpos
    · rw [Int.sign_eq_neg_one_iff_neg.mpr hneg]
      refine le_trans (clamp_abs_le _ _ h1 h2) ?_
      have : c + -1 * M - c = -M := by ring
      rw [this, abs_neg, abs_of_nonneg hM0]
    · rw [Int.sign_eq_one_iff_pos.mpr hpos]
      refine le_trans (clamp_abs_le _ _ h1 h2) ?_
      have : c + 1 * M - c = M := by ring
      rw [this, abs_of_nonneg hM0]
  · rw [if_neg h]
    exact le_trans (clamp_abs_le _ _ h1 h2) (le_of_not_lt h)

/-- C2: for a provider with a closed circuit and at least the minimum
sample size, the MAB policy's suggested weight differs from the current
weight by at most floor(currentWeight * maxWeightAdjustmentPercent / 100),
whatever baseline is in force. -/
theorem mab_rate_limit (p : MWProvider) (baseWeight basePriority : ℤ)
    (config : MABConfig)
    (hcirc : p.circuitState = .closed)
    (hsample : config.minSampleSize ≤ p.metrics.weighted.requests)
    (hw1 : 1 ≤ p.weight) (hw2 : p.weight ≤ 100)
    (hpct : 0 ≤ config.maxWeightAdjustmentPercent) :
    |(MABScheduler.calculateAdjustment p baseWeight basePriority config).1 - p.weight| ≤
      jsFloor ((p.weight : ℚ) * (config.maxWeightAdjustmentPercent / 100)) := by
  rw [MABScheduler.calculateAdjustment, hcirc]
  rw [if_neg (by intro h; cases h), if_neg (by intro h; cases h),
    if_neg (not_lt.mpr hsample)]
  exact rateLimitClamp_abs_le _ _ _ hw1 hw2 hpct

/-- C2 witness: the suggested weight for mwProviderEx moves from 55 to 50,
within the per-cycle bound floor(55 * 10/100) = 5. -/
theorem mab_rate_limit_witness :
    |(MABScheduler.calculateAdjustment mwProviderEx 50 0 mabConfigEx).1 - mwProviderEx.weight| ≤
      jsFloor ((mwProviderEx.weight : ℚ) * (mabConfigEx.maxWeightAdjustmentPercent / 100)) :=
  mab_rate_limit mwProviderEx 50 0 mabConfigEx (by decide) (by decide)
    (by decide) (by decide) (by decide)

/-- C3 counterexample: with an open circuit, confidence 80 and weight 10,
the rule (AutoScheduler) policy suggests weight 7 and priority 2, not
weight 0 and priority 999. -/
theorem rule_circuit_open_not_zero :
    ¬((AutoScheduler.applyStrategy providerEx analyticsEx .open_).afterWeight = 0 ∧
      (AutoScheduler.applyStrategy providerEx analyticsEx .open_).afterPriority = 999) := by
  have h : (AutoScheduler.applyStrategy providerEx analyticsEx .open_).afterWeight = 7 := by
    norm_num [AutoScheduler.applyStrategy, providerEx, analyticsEx]
  intro hc
  rw [h] at hc
  exact absurd hc.1 (by norm_num)

/-- C3 amended: with an open circuit the MAB policy always suggests weight
0 and priority 999; the rule policy's circuit_penalty path (taken when
confidence is at least 50) instead multiplies the current weight by 0.7
(floored, minimum 1) and adds 2 to the current priority. -/
theorem circuit_open_amended :
    (∀ (p : MWProvider) (baseWeight basePriority : ℤ) (config : MABConfig),
        p.circuitState = .open_ →
          MABScheduler.calculateAdjustment p baseWeight basePriority config = (0, 999))
    ∧ (∀ (provider : Provider) (a : ProviderAnalytics),
        50 ≤ a.confidence →
          (AutoScheduler.applyStrategy provider a .open_).action = .circuitPenalty ∧
          (AutoScheduler.applyStrategy provider a .open_).afterWeight =
            max 1 (jsFloor ((provider.weight : ℚ) * (7/10))) ∧
          (AutoScheduler.applyStrategy provider a .open_).afterPriority =
            provider.priority + 2) := by
  constructor
  · intro p baseWeight basePriority config h
    rw [MABScheduler.calculateAdjustment, if_pos h]
  · intro provider a h
    rw [AutoScheduler.applyStrategy]
    rw [if_neg (not_lt.mpr h), if_pos rfl]
    exact ⟨rfl, rfl, rfl⟩

/-- C3 amended witness: MAB gives (0, 999) for the open-circuit provider,
and the rule policy marks providerEx as circuit_penalty. -/
theorem circuit_open_amended_witness :
    MABScheduler.calculateAdjustment mwProviderOpenEx 50 0 mabConfigEx = (0, 999) ∧
    (AutoScheduler.applyStrategy providerEx analyticsEx .open_).action = .circuitPenalty :=
  ⟨circuit_open_amended.1 mwProviderOpenEx 50 0 mabConfigEx (by decide),
   (circuit_open_amended.2 providerEx analyticsEx (by decide)).1⟩

/-- C4: a dryRun cycle never touches any provider row (weight, priority,
baseWeight, basePriority all unchanged), under both the realtime (MAB)
engine and the rule scheduler, for every configuration, provider set,
circuit state and fault pattern. -/
theorem dryRun_frame :
    (∀ (env : FaultEnv) (config : MABConfig) (providers : List MWProvider) (s : Store),
        (RealtimeDecisionEngine.execute env config providers true s).2.providers =
          s.providers)
    ∧ (∀ (env : FaultEnv) (providers : List Provider)
        (analytics : ℤ → Option ProviderAnalytics) (circuit : ℤ → CircuitState)
        (s : Store),
        (AutoScheduler.execute env providers analytics circuit true s).2.providers =
          s.providers) := by
  constructor
  · intro env config providers s
    rw [RealtimeDecisionEngine.execute]
    split_ifs <;> simp_all
  · intro env providers analytics circuit s
    rw [AutoScheduler.execute]
    split_ifs <;> simp_all

/-- C5 counterexample: when the update of provider 1 throws, the rule
scheduler's commit loop stops before ever attempting provider 2 (the
store is left exactly as it was and the loop reports the exception),
while the realtime engine skips provider 1 and still updates provider 2. -/
theorem rule_persistence_abort :
    (AutoScheduler.applyDecisions envFail1 [decisionAEx, decisionBEx] storeTwoEx).1.providers =
      storeTwoEx.providers ∧
    (AutoScheduler.applyDecisions envFail1 [decisionAEx, decisionBEx] storeTwoEx).2 = false ∧
    (RealtimeDecisionEngine.applyDecisions envFail1 [decisionAEx, decisionBEx] storeTwoEx).providers =
      [⟨1, 10, 0, none, none⟩, ⟨2, 8, 1, some 10, some 0⟩] := by
  refine ⟨?_, ?_, ?_⟩ <;> decide

/-- C5 amended: in the realtime engine, failures among the first updates
of the commit loop never prevent the remaining updates from being
processed; in the rule scheduler, once the loop has failed, appending
further decisions changes nothing: they are never attempted. -/
theorem update_failure_isolation :
    (∀ (env : FaultEnv) (ds1 ds2 : List Decision) (s : Store),
        RealtimeDecisionEngine.applyGo env (ds1 ++ ds2) s =
          RealtimeDecisionEngine.applyGo env ds2 (RealtimeDecisionEngine.applyGo env ds1 s))
    ∧ (∀ (env : FaultEnv) (ds1 ds2 : List Decision) (s : Store),
        (AutoScheduler.applyGo env ds1 s).2 = false →
          AutoScheduler.applyGo env (ds1 ++ ds2) s = AutoScheduler.applyGo env ds1 s) := by
  constructor
  · intro env ds1 ds2
    induction ds1 with
    | nil => intro s; rfl
    | cons d rest ih =>
        intro s
        rw [List.cons_append, RealtimeDecisionEngine.applyGo,
          RealtimeDecisionEngine.applyGo, ih]
  · intro env ds1 ds2
    induction ds1 with
    | nil =>
        intro s h
        exact absurd h (by simp [AutoScheduler.applyGo])
    | cons d rest ih =>
        intro s h
        rw [List.cons_append, AutoScheduler.applyGo]
        rw [AutoScheduler.applyGo] at h ⊢
        by_cases hf : env.updateFails d.providerId
        · rw [if_pos hf]
          rw [if_pos hf]
        · rw [if_neg hf]
          rw [if_neg hf] at h ⊢
          exact ih _ h

/-- C5 amended witness: appending decisionBEx after the failing
decisionAEx leaves the rule scheduler's outcome unchanged. -/
theorem update_failure_isolation_witness :
    AutoScheduler.applyGo envFail1 ([decisionAEx] ++ [decisionBEx]) storeTwoEx =
      AutoScheduler.applyGo envFail1 [decisionAEx] storeTwoEx :=
  update_failure_isolation.2 envFail1 [decisionAEx] [decisionBEx] storeTwoEx (by decide)

theorem rt_applyGo_logs (env : FaultEnv) (ds : List Decision) (s : Store) :
    (RealtimeDecisionEngine.applyGo env ds s).logs = s.logs := by
  induction ds generalizing s with
  | nil => rfl
  | cons d rest ih =>
      rw [RealtimeDecisionEngine.applyGo]
      rw [ih]
      split_ifs <;> rfl

/-- C6 counterexample: a failing ScheduleLog insert makes the rule
scheduler's cycle return ok = false (not ok = true) and no log row is
written; the cycle did reach the commit step normally. -/
theorem rule_log_failure_not_ok :
    (AutoScheduler.execute envLogFail [providerEx] analyticsLookupEx
        (fun _ => .closed) false storeTwoEx).1.ok = false ∧
    (AutoScheduler.execute envLogFail [providerEx] analyticsLookupEx
        (fun _ => .closed) false storeTwoEx).2.logs = 0 := by
  refine ⟨?_, ?_⟩ <;> decide

/-- C6 amended: the realtime engine swallows a log-write failure — every
non-empty cycle returns ok = true, appends one ScheduleLog row exactly
when the insert does not fail, and keeps the provider rows it committed —
while in the rule scheduler a failing log write makes the cycle return
ok = false; a realtime cycle over zero providers writes no log at all. -/
theorem log_failure_amended :
    (∀ (env : FaultEnv) (config : MABConfig) (providers : List MWProvider)
        (dryRun : Bool) (s : Store),
        providers ≠ [] →
          (RealtimeDecisionEngine.execute env config providers dryRun s).1.ok = true ∧
          (RealtimeDecisionEngine.execute env config providers dryRun s).2.logs =
            (if env.logFails then s.logs else s.logs + 1) ∧
          (RealtimeDecisionEngine.execute env config providers dryRun s).2.providers =
            (if dryRun then s else
              RealtimeDecisionEngine.applyDecisions env
                (RealtimeDecisionEngine.convertToScheduleDecisions
                  (MABScheduler.generateDecisions providers config)) s).providers)
    ∧ (∀ (env : FaultEnv) (providers : List Provider)
        (analytics : ℤ → Option ProviderAnalytics) (circuit : ℤ → CircuitState)
        (dryRun : Bool) (s : Store),
        env.logFails = true →
          (AutoScheduler.execute env providers analytics circuit dryRun s).1.ok = false)
    ∧ (∀ (env : FaultEnv) (config : MABConfig) (dryRun : Bool) (s : Store),
        (RealtimeDecisionEngine.execute env config [] dryRun s).2 = s) := by
  refine ⟨?_, ?_, ?_⟩
  · intro env config providers dryRun s hne
    rw [RealtimeDecisionEngine.execute, if_neg hne]
    refine ⟨rfl, ?_, ?_⟩
    · by_cases hl : env.logFails <;> by_cases hd : dryRun <;>
        simp [hl, hd, RealtimeDecisionEngine.applyDecisions, rt_applyGo_logs]
    · by_cases hl : env.logFails <;> by_cases hd : dryRun <;> simp [hl, hd]
  · intro env providers analytics circuit dryRun s hl
    rw [AutoScheduler.execute]
    split_ifs <;> simp_all
  · intro env config dryRun s
    rw [RealtimeDecisionEngine.execute, if_pos rfl]

/-- C6 amended witness: a realtime cycle over mwProviderEx returns ok and
appends one log row even though the counterexample environment fails the
log write in the rule scheduler; the rule scheduler returns ok = false. -/
theorem log_failure_amended_witness :
    (RealtimeDecisionEngine.execute envOk mabConfigEx [mwProviderEx] false storeEx).1.ok = true ∧
    (AutoScheduler.execute envLogFail [providerEx] analyticsLookupEx
        (fun _ => .closed) false storeTwoEx).1.ok = false :=
  ⟨(log_failure_amended.1 envOk mabConfigEx [mwProviderEx] false storeEx (by simp)).1,
   log_failure_amended.2.1 envLogFail [providerEx] analyticsLookupEx
     (fun _ => .closed) false storeTwoEx (by decide)⟩

theorem summary_foldl_frozen (ds : List Decision) (init : ScheduleSummary)
    (h : ∀ d ∈ ds, d.action ≠ ScheduleAction.recover ∧
      d.action ≠ ScheduleAction.circuitPenalty) :
    (ds.foldl RealtimeDecisionEngine.summaryStep init).recovered = init.recovered ∧
    (ds.foldl RealtimeDecisionEngine.summaryStep init).circuitOpen = init.circuitOpen := by
  induction ds generalizing init with
  | nil => exact ⟨rfl, rfl⟩
  | cons d rest ih =>
      rw [List.foldl_cons]
      have hd := h d (List.mem_cons_self d rest)
      have hrest : ∀ x ∈ rest, x.action ≠ ScheduleAction.recover ∧
          x.action ≠ ScheduleAction.circuitPenalty :=
        fun x hx => h x (List.mem_cons_of_mem d hx)
      have hstep : (RealtimeDecisionEngine.summaryStep init d).recovered = init.recovered ∧
          (RealtimeDecisionEngine.summaryStep init d).circuitOpen = init.circuitOpen := by
        rw [RealtimeDecisionEngine.summaryStep]
        rcases hact : d.action <;> simp_all
      obtain ⟨h1, h2⟩ := ih (RealtimeDecisionEngine.summaryStep init d) hrest
      exact ⟨h1.trans hstep.1, h2.trans hstep.2⟩

theorem convert_action_cases (mabDecisions : List MABScheduler.MABDecision) :
    ∀ d ∈ RealtimeDecisionEngine.convertToScheduleDecisions mabDecisions,
      d.action = ScheduleAction.explore ∨ d.action = ScheduleAction.promote ∨
      d.action = ScheduleAction.demote ∨ d.action = ScheduleAction.maintain := by
  intro d hd
  rw [RealtimeDecisionEngine.convertToScheduleDecisions] at hd
  rcases List.mem_map.1 hd with ⟨mab, _, rfl⟩
  simp only []
  split_ifs <;> simp_all

theorem calculateSummary_frozen (ds : List Decision)
    (h : ∀ d ∈ ds, d.action ≠ ScheduleAction.recover ∧
      d.action ≠ ScheduleAction.circuitPenalty) :
    (RealtimeDecisionEngine.calculateSummary ds).recovered = 0 ∧
    (RealtimeDecisionEngine.calculateSummary ds).circuitOpen = 0 := by
  rw [RealtimeDecisionEngine.calculateSummary]
  exact summary_foldl_frozen ds ⟨0, 0, 0, 0, 0⟩ h

theorem convert_no_recover_penalty (mabDecisions : List MABScheduler.MABDecision) :
    ∀ d ∈ RealtimeDecisionEngine.convertToScheduleDecisions mabDecisions,
      d.action ≠ ScheduleAction.recover ∧ d.action ≠ ScheduleAction.circuitPenalty := by
  intro d hd
  rcases convert_action_cases mabDecisions d hd with h | h | h | h <;> rw [h] <;> decide

/-- C10: the realtime engine's action classification only ever yields
explore, promote, demote or maintain (recover and circuit_penalty are
unreachable on this path), so every realtime cycle's summary has
recovered = 0 and circuitOpen = 0 and its affectedProviders count equals
promoted + demoted. -/
theorem realtime_action_classification (mabDecisions : List MABScheduler.MABDecision) :
    (∀ d ∈ RealtimeDecisionEngine.convertToScheduleDecisions mabDecisions,
        d.action = ScheduleAction.explore ∨ d.action = ScheduleAction.promote ∨
        d.action = ScheduleAction.demote ∨ d.action = ScheduleAction.maintain)
    ∧ (RealtimeDecisionEngine.calculateSummary
        (RealtimeDecisionEngine.convertToScheduleDecisions mabDecisions)).recovered = 0
    ∧ (RealtimeDecisionEngine.calculateSummary
        (RealtimeDecisionEngine.convertToScheduleDecisions mabDecisions)).circuitOpen = 0
    ∧ ∀ (env : FaultEnv) (config : MABConfig) (providers : List MWProvider)
        (dryRun : Bool) (s : Store),
        (RealtimeDecisionEngine.execute env config providers dryRun s).1.summary.recovered = 0 ∧
        (RealtimeDecisionEngine.execute env config providers dryRun s).1.summary.circuitOpen = 0 ∧
        (RealtimeDecisionEngine.execute env config providers dryRun s).1.affectedProviders =
          (RealtimeDecisionEngine.execute env config providers dryRun s).1.summary.promoted +
          (RealtimeDecisionEngine.execute env config providers dryRun s).1.summary.demoted := by
  refine ⟨convert_action_cases mabDecisions,
    (calculateSummary_frozen _ (convert_no_recover_penalty mabDecisions)).1,
    (calculateSummary_frozen _ (convert_no_recover_penalty mabDecisions)).2, ?_⟩
  intro env config providers dryRun s
  rw [RealtimeDecisionEngine.execute]
  by_cases hp : providers = []
  · rw [if_pos hp]
    exact ⟨rfl, rfl, rfl⟩
  · rw [if_neg hp]
    have hsum := calculateSummary_frozen
      (RealtimeDecisionEngine.convertToScheduleDecisions
        (MABScheduler.generateDecisions providers config))
      (convert_no_recover_penalty (MABScheduler.generateDecisions providers config))
    simp only []
    refine ⟨hsum.1, hsum.2, ?_⟩
    rw [hsum.1]
    omega

/-- C10 witness: the single converted decision of mabDecisionEx is a
promote, and the summary of that cycle has no recovered and no
circuit-open entries. -/
theorem realtime_action_classification_witness :
    (convertedDecisionEx.action = ScheduleAction.explore ∨
      convertedDecisionEx.action = ScheduleAction.promote ∨
      convertedDecisionEx.action = ScheduleAction.demote ∨
      convertedDecisionEx.action = ScheduleAction.maintain) ∧
    (RealtimeDecisionEngine.calculateSummary
      (RealtimeDecisionEngine.convertToScheduleDecisions [mabDecisionEx])).recovered = 0 :=
  ⟨(realtime_action_classification [mabDecisionEx]).1 convertedDecisionEx (by decide),
   (realtime_action_classification [mabDecisionEx]).2.1⟩

/-- C1: the realtime engine overwrites an already-set baseline.
storeEx holds provider 1 with baseWeight already seeded to 50; the cycle
demotes its weight from 55 to 50 and, because convertToScheduleDecisions
sets every decision's baseline to the current weight, the first-write
guard in applyDecisions is vacuously true and base_weight is rewritten to
55 — the pre-existing baseline 50 is lost without any explicit reset. -/
theorem realtime_baseline_overwritten :
    (RealtimeDecisionEngine.execute envOk mabConfigEx [mwProviderEx] false storeEx).2.providers =
      [{ id := 1, weight := 50, priority := 2, baseWeight := some 55,
         basePriority := some 0 }] := by
  norm_num [RealtimeDecisionEngine.execute, MABScheduler.generateDecisions,
    RealtimeDecisionEngine.convertToScheduleDecisions,
    MABScheduler.calculateAdjustment, MABScheduler.tierAdjust,
    MABScheduler.rateLimitClamp, MABScheduler.calculateConfidence,
    RealtimeDecisionEngine.calculateSummary, RealtimeDecisionEngine.summaryStep,
    RealtimeDecisionEngine.applyDecisions, RealtimeDecisionEngine.applyGo,
    applyUpdate, mwProviderEx, mabConfigEx, storeEx, envOk]
  decide
